import Mathlib

/-!
Verification of the company-registry lookup and e-mail relay backend.

The definitions below are shallow embeddings of the Go sources: the
`/api/entreprise/` lookup flow (`fetchSocieteExistData`,
`fetchSocieteComData`, `entrepriseHandler`), the `/api/send-email` flow
(`sendEmailHandler` split into a pure action and a response stage,
`splitLines`, the MIME composer) and the port-465 SMTP path
(`sendMail465`).  Network and environment effects are passed in as
explicit oracle arguments; `encoding/json` decoding is modelled on an
explicit JSON value type following the documented semantics of
`json.Unmarshal` into the structs declared by the sources.  Go's `len`
on the identifier strings is modelled as character count, which agrees
with byte count on the ASCII identifiers at issue.
-/

/-- A JSON value, the result of successfully parsing a response body. -/
inductive JVal where
  | null
  | jbool (b : Bool)
  | num (n : Int)
  | str (s : String)
  | arr (xs : List JVal)
  | obj (fields : List (String × JVal))

/-- Key lookup in a JSON object.  Mirrors `encoding/json`, where a later
duplicate key overwrites an earlier one (last occurrence wins). -/
def jlookup (k : String) : List (String × JVal) → Option JVal
  | [] => none
  | (k', v) :: rest =>
      match jlookup k rest with
      | some r => some r
      | none => if k' == k then some v else none

/-- `json.Unmarshal` of a JSON member into a Go `string` field: absent or
`null` leaves the zero value `""`, a string is taken verbatim, any other
value is a type error.  The stdlib error text is abstracted. -/
def unmarshalGoString (fs : List (String × JVal)) (k : String) : Except String String :=
  match jlookup k fs with
  | none => Except.ok ""
  | some JVal.null => Except.ok ""
  | some (JVal.str s) => Except.ok s
  | some _ => Except.error ("cannot unmarshal value into string field " ++ k)

/-- The `common` object of `SocieteExistResponse` (part_001 lines 35-44). -/
structure ExistCommon where
  siren : String
  siretSiege : String
  numtva : String
  deno : String
  status : String
  immatinsee : String
deriving DecidableEq

/-- `json.Unmarshal` into the nested `Common` struct. -/
def unmarshalExistCommon : JVal → Except String ExistCommon
  | JVal.null => Except.ok ⟨"", "", "", "", "", ""⟩
  | JVal.obj fs => do
      let siren ← unmarshalGoString fs "siren"
      let siretSiege ← unmarshalGoString fs "siretsiege"
      let numtva ← unmarshalGoString fs "numtva"
      let deno ← unmarshalGoString fs "deno"
      let st ← unmarshalGoString fs "status"
      let immat ← unmarshalGoString fs "immatinsee"
      Except.ok ⟨siren, siretSiege, numtva, deno, st, immat⟩
  | _ => Except.error "cannot unmarshal value into struct common"

/-- `json.Unmarshal` into `SocieteExistResponse`: the wrapper struct has the
single member `common`; an absent member leaves the zero value. -/
def unmarshalSocieteExist : JVal → Except String ExistCommon
  | JVal.null => Except.ok ⟨"", "", "", "", "", ""⟩
  | JVal.obj fs =>
      match jlookup "common" fs with
      | none => Except.ok ⟨"", "", "", "", "", ""⟩
      | some v => unmarshalExistCommon v
  | _ => Except.error "cannot unmarshal value into struct SocieteExistResponse"

/-- `EntrepriseResponse` (part_001 lines 23-32): the canonical entity sent
to the frontend. -/
structure EntrepriseResponse where
  denomination : String
  siren : String
  siret : String
  tva : String
  ville : String
  codePostal : String
deriving DecidableEq

/-- What the registry returned for one request: either a transport error
from `client.Do`, or an HTTP response with status code, raw body bytes and
the result of JSON-parsing those bytes. -/
inductive UpstreamReply where
  | netErr (msg : String)
  | response (statusCode : Nat) (rawBody : String) (parsed : Except String JVal)

/-- `fetchSocieteExistData` (part_001 lines 112-157 = main.go lines
537-582): classify the upstream outcome and normalize the 200 payload.
The `/exist` endpoint never supplies an address, so both address fields
stay empty. -/
def fetchSocieteExistData : UpstreamReply → Except String EntrepriseResponse
  | UpstreamReply.netErr m => Except.error m
  | UpstreamReply.response statusCode rawBody parsed =>
      if statusCode = 404 then
        Except.error "entreprise introuvable (numid invalide)"
      else if statusCode ≠ 200 then
        Except.error ("erreur API distante : " ++ toString statusCode ++ " - " ++ rawBody)
      else
        match parsed with
        | Except.error e => Except.error ("erreur de décodage JSON : " ++ e)
        | Except.ok j =>
            match unmarshalSocieteExist j with
            | Except.error e => Except.error ("erreur de décodage JSON : " ++ e)
            | Except.ok c => Except.ok ⟨c.deno, c.siren, c.siretSiege, c.numtva, "", ""⟩

/-- Whether `needle` is a prefix of `hay` (character lists). -/
def startsWithSeq : List Char → List Char → Bool
  | [], _ => true
  | _ :: _, [] => false
  | a :: as, b :: bs => a == b && startsWithSeq as bs

/-- `strings.Contains`: whether `needle` occurs contiguously in `hay`. -/
def hasSubSeq (needle : List Char) : List Char → Bool
  | [] => startsWithSeq needle []
  | b :: rest => startsWithSeq needle (b :: rest) || hasSubSeq needle rest

/-- Outcome of one `/api/entreprise/` request: HTTP status, the `error`
field of the JSON body (`none` on success), and whether the registry call
was made. -/
structure EntrepriseResult where
  status : Nat
  errBody : Option String
  fetched : Bool
deriving DecidableEq

/-- `entrepriseHandler` (part_001 lines 161-193 = main.go lines 586-618):
length-only identifier validation, then the registry call, then error
routing by `strings.Contains(err.Error(), "introuvable")`. -/
def entrepriseHandler (upstream : String → UpstreamReply) (numid : String) : EntrepriseResult :=
  if numid.length ≠ 9 ∧ numid.length ≠ 14 then
    ⟨400, some "Le paramètre doit être un SIREN (9 chiffres) ou un SIRET (14 chiffres)", false⟩
  else
    match fetchSocieteExistData (upstream numid) with
    | Except.error e =>
        if hasSubSeq "introuvable".data e.data then
          ⟨404, some "Entreprise inconnue", true⟩
        else
          ⟨500, some e, true⟩
    | Except.ok _ => ⟨200, none, true⟩

/-- A postal address as decoded from societe.com (`code_postal`, `ville`). -/
structure Adresse where
  codePostal : String
  ville : String
deriving DecidableEq

/-- `SocieteComResponse` (main.go lines 30-45): the fields of the
`/etablissement` payload that the mapping reads.  The part_002 revision
additionally declares an unused `nom_commercial` member; no resolution
logic reads it, so it is omitted here. -/
structure SocieteComResponse where
  denomination : String
  denominationUsuelle : String
  enseigne : String
  adresse : Adresse
  etablissementAdresse : Adresse
deriving DecidableEq

/-- The canonical entity of the `/etablissement` revisions (main.go lines
20-27): name plus legal postal address. -/
structure EntrepriseComResult where
  denomination : String
  villeLegale : String
  codePostalLegal : String
deriving DecidableEq

/-- Mapping step of `fetchSocieteComData`, first revision (main.go lines
130-150): name priority without a sentinel, address from the root when its
city is non-empty, otherwise from `etablissement.adresse`. -/
def fetchSocieteComDataMap (a : SocieteComResponse) : EntrepriseComResult :=
  ⟨if a.denomination ≠ "" then a.denomination
    else if a.denominationUsuelle ≠ "" then a.denominationUsuelle
    else a.enseigne,
   if a.adresse.ville ≠ "" then a.adresse.ville else a.etablissementAdresse.ville,
   if a.adresse.ville ≠ "" then a.adresse.codePostal else a.etablissementAdresse.codePostal⟩

/-- Mapping step of `fetchSocieteComData`, part_002 revision (lines
274-297): name priority ending in the sentinel `"Nom Inconnu"`; address
from the root, else from `etablissement.adresse` when its city is
non-empty, else left at the zero value. -/
def fetchSocieteComDataMapP2 (a : SocieteComResponse) : EntrepriseComResult :=
  ⟨if a.denomination ≠ "" then a.denomination
    else if a.denominationUsuelle ≠ "" then a.denominationUsuelle
    else if a.enseigne ≠ "" then a.enseigne
    else "Nom Inconnu",
   if a.adresse.ville ≠ "" then a.adresse.ville
    else if a.etablissementAdresse.ville ≠ "" then a.etablissementAdresse.ville
    else "",
   if a.adresse.ville ≠ "" then a.adresse.codePostal
    else if a.etablissementAdresse.ville ≠ "" then a.etablissementAdresse.codePostal
    else ""⟩

/-- `json.Unmarshal` into the nested `adresse` struct. -/
def unmarshalAdresse : JVal → Except String Adresse
  | JVal.null => Except.ok ⟨"", ""⟩
  | JVal.obj fs => do
      let cp ← unmarshalGoString fs "code_postal"
      let v ← unmarshalGoString fs "ville"
      Except.ok ⟨cp, v⟩
  | _ => Except.error "cannot unmarshal value into struct adresse"

/-- `json.Unmarshal` into the `etablissement` struct, whose single member
is `adresse`. -/
def unmarshalEtablissement : JVal → Except String Adresse
  | JVal.null => Except.ok ⟨"", ""⟩
  | JVal.obj fs =>
      match jlookup "adresse" fs with
      | none => Except.ok ⟨"", ""⟩
      | some v => unmarshalAdresse v
  | _ => Except.error "cannot unmarshal value into struct etablissement"

/-- `json.Unmarshal` into `SocieteComResponse` (main.go lines 30-45, used
at line 125): absent members leave zero values, unknown members are
ignored. -/
def unmarshalSocieteCom : JVal → Except String SocieteComResponse
  | JVal.null => Except.ok ⟨"", "", "", ⟨"", ""⟩, ⟨"", ""⟩⟩
  | JVal.obj fs => do
      let deno ← unmarshalGoString fs "denomination"
      let du ← unmarshalGoString fs "denomination_usuelle"
      let ens ← unmarshalGoString fs "enseigne"
      let adr ←
        match jlookup "adresse" fs with
        | none => Except.ok (⟨"", ""⟩ : Adresse)
        | some v => unmarshalAdresse v
      let etab ←
        match jlookup "etablissement" fs with
        | none => Except.ok (⟨"", ""⟩ : Adresse)
        | some v => unmarshalEtablissement v
      Except.ok ⟨deno, du, ens, adr, etab⟩
  | _ => Except.error "cannot unmarshal value into struct SocieteComResponse"

/-- `EmailRequest` (part_001 lines 47-53).  The Go field `To` (json `to`)
is called `toAddr` because `to` is reserved here. -/
structure EmailRequest where
  toAddr : String
  subject : String
  body : String
  attachmentName : String
  attachmentData : String
deriving DecidableEq

/-- Fuel-driven core of `splitLines` (part_001 lines 70-78): while more
than 76 characters remain, emit a 76-character line; finally emit the
rest.  The fuel `n` only bounds iteration; `splitChunks` supplies enough
fuel for the loop to run to completion, as the equations
`splitChunks_eq_of_le` and `splitChunks_eq_of_gt` below establish. -/
def splitChunksAux : Nat → List Char → List (List Char)
  | 0, s => [s]
  | n + 1, s => if s.length > 76 then s.take 76 :: splitChunksAux n (s.drop 76) else [s]

/-- The lines produced by `splitLines`, as character lists. -/
def splitChunks (s : List Char) : List (List Char) := splitChunksAux s.length s

/-- `splitLines` (part_001 lines 70-78): the base64 payload re-wrapped to
lines of at most 76 characters, joined by CRLF. -/
def splitLines (s : String) : String :=
  String.intercalate "\r\n" ((splitChunks s.data).map (fun l => String.mk l))

/-- The fixed multipart boundary token (part_001 line 241). -/
def boundary : String := "MyBoundarySeparation12345"

/-- The five header entries placed into the Go `header` map (part_001
lines 244-249), listed in insertion order. -/
def headerPairs (fromAddr rcpt subject : String) : List (String × String) :=
  [("From", fromAddr), ("To", rcpt), ("Subject", subject),
   ("MIME-Version", "1.0"),
   ("Content-Type", "multipart/mixed; boundary=" ++ boundary)]

/-- The header block built by `for k, v := range header` (part_001 lines
251-254).  Go map iteration order is unspecified, so the order the loop
observes is passed in as the list `iter`; a run of the program
corresponds to some permutation of `headerPairs`. -/
def emitHeaders (iter : List (String × String)) : String :=
  iter.foldl (fun acc p => acc ++ p.1 ++ ": " ++ p.2 ++ "\r\n") ""

/-- The text part of the message (part_001 lines 257-262). -/
def textPart (body : String) : String :=
  "--" ++ boundary ++ "\r\n" ++
  "Content-Type: text/plain; charset=\"utf-8\"\r\n" ++
  "Content-Transfer-Encoding: 7bit\r\n" ++
  "\r\n" ++
  body ++ "\r\n"

/-- Filename sanitization `strings.ReplaceAll(req.AttachmentName, "\n", "")`
(part_001 line 267). -/
def cleanName (n : String) : String := String.mk (n.data.filter (fun c => c ≠ '\n'))

/-- The attachment part of the message (part_001 lines 269-275). -/
def attachmentPart (name data : String) : String :=
  "--" ++ boundary ++ "\r\n" ++
  "Content-Type: application/pdf\r\n" ++
  "Content-Transfer-Encoding: base64\r\n" ++
  "Content-Disposition: attachment; filename=\"" ++ cleanName name ++ "\"\r\n" ++
  "\r\n" ++
  splitLines data ++ "\r\n"

/-- The attachment section actually appended: present exactly when both
`AttachmentData` and `AttachmentName` are non-empty (part_001 line 265). -/
def attachmentSection (req : EmailRequest) : String :=
  if req.attachmentData ≠ "" ∧ req.attachmentName ≠ "" then
    attachmentPart req.attachmentName req.attachmentData
  else ""

/-- The closing boundary marker (part_001 line 278). -/
def closingMarker : String := "--" ++ boundary ++ "--\r\n"

/-- The full composed message (part_001 lines 240-278) under header
iteration order `iter`. -/
def composeMessage (iter : List (String × String)) (req : EmailRequest) : String :=
  emitHeaders iter ++ "\r\n" ++ textPart req.body ++ attachmentSection req ++ closingMarker

/-- The SMTP relay configuration read from the environment (part_001
lines 219-222). -/
structure SmtpConfig where
  host : String
  port : String
  user : String
  pass : String
deriving DecidableEq

/-- What `sendEmailHandler` decides to do before touching the network:
one of the four rejections, or a delivery with a transport flag (`true`
for the port-465 implicit-TLS path), relay address, envelope sender,
recipient list and message bytes. -/
inductive SendAction where
  | rejectMethod
  | rejectJson
  | rejectMissing
  | rejectConfig
  | deliver (via465 : Bool) (addr : String) (sender : String)
      (rcpts : List String) (msg : String)
deriving DecidableEq

/-- Pure part of `sendEmailHandler` (part_001 lines 196-294): method
check, JSON decoding (its outcome passed in as `decoded`), required-field
check, configuration check, message composition, and transport selection
by `smtpPort == "465"`. -/
def sendEmailAction (method : String) (decoded : Option EmailRequest)
    (cfg : SmtpConfig) (iter : List (String × String)) : SendAction :=
  if method ≠ "POST" then SendAction.rejectMethod
  else
    match decoded with
    | none => SendAction.rejectJson
    | some req =>
        if req.toAddr = "" ∨ req.subject = "" ∨ req.body = "" then
          SendAction.rejectMissing
        else if cfg.host = "" ∨ cfg.port = "" ∨ cfg.user = "" ∨ cfg.pass = "" then
          SendAction.rejectConfig
        else
          SendAction.deliver (cfg.port == "465") (cfg.host ++ ":" ++ cfg.port)
            cfg.user [req.toAddr] (composeMessage iter req)

/-- HTTP response written by `sendEmailHandler` for a given action, with
the transport result of the delivery attempt passed in as `sendErr`
(`none` = the SMTP send succeeded). The pair is (status, the single
string field of the JSON body). -/
def sendEmailResponse (a : SendAction) (sendErr : Option String) : Nat × Option String :=
  match a with
  | SendAction.rejectMethod => (405, some "Méthode non autorisée. Utilisez POST.")
  | SendAction.rejectJson => (400, some "JSON invalide")
  | SendAction.rejectMissing =>
      (400, some "Les champs \x27to\x27, \x27subject\x27 et \x27body\x27 sont requis")
  | SendAction.rejectConfig => (500, some "Configuration serveur email incomplète")
  | SendAction.deliver _ _ _ _ _ =>
      match sendErr with
      | some e => (500, some ("Échec de l\x27envoi : " ++ e))
      | none => (200, some "Email envoyé avec succès")

/-- One SMTP protocol action of the port-465 session. -/
inductive SmtpCommand where
  | tlsDial (addr : String)
  | authCmd
  | mailFrom (sender : String)
  | rcptTo (rcpt : String)
  | dataCmd
  | writeBody (msg : String)
  | closeData
  | quitCmd
deriving DecidableEq

/-- The protocol actions of a successful `sendMail465` session (part_001
lines 309-358): direct TLS dial, AUTH only when the server advertises the
extension, MAIL FROM, one RCPT TO per recipient, DATA, the message bytes,
closing the data writer, QUIT. -/
def sendMail465Trace (addr sender : String) (rcpts : List String) (msg : String)
    (authAdvertised : Bool) : List SmtpCommand :=
  [SmtpCommand.tlsDial addr] ++
  (if authAdvertised then [SmtpCommand.authCmd] else []) ++
  [SmtpCommand.mailFrom sender] ++
  rcpts.map SmtpCommand.rcptTo ++
  [SmtpCommand.dataCmd, SmtpCommand.writeBody msg, SmtpCommand.closeData,
   SmtpCommand.quitCmd]

theorem splitChunksAux_of_le (n : Nat) (s : List Char) (h : s.length ≤ 76) :
    splitChunksAux n s = [s] := by
  cases n with
  | zero => rfl
  | succ n =>
      unfold splitChunksAux
      rw [if_neg (by omega)]

theorem splitChunksAux_fuel (n : Nat) :
    ∀ (m : Nat) (s : List Char), s.length ≤ 76 * n + 76 → s.length ≤ 76 * m + 76 →
      splitChunksAux n s = splitChunksAux m s := by
  induction n with
  | zero =>
      intro m s hn _
      rw [splitChunksAux_of_le 0 s (by omega), splitChunksAux_of_le m s (by omega)]
  | succ n ih =>
      intro m s hn hm
      by_cases h : s.length > 76
      · cases m with
        | zero => omega
        | succ m' =>
            unfold splitChunksAux
            rw [if_pos h, if_pos h]
            have hd : (s.drop 76).length = s.length - 76 := List.length_drop 76 s
            rw [ih m' (s.drop 76) (by omega) (by omega)]
      · rw [splitChunksAux_of_le _ s (by omega), splitChunksAux_of_le _ s (by omega)]

/-- The stop case of the `splitLines` loop: at most 76 characters remain,
so exactly one line is emitted. -/
theorem splitChunks_eq_of_le (s : List Char) (h : s.length ≤ 76) :
    splitChunks s = [s] :=
  splitChunksAux_of_le s.length s h

/-- The step case of the `splitLines` loop: with more than 76 characters
left, the first 76 become a line and the loop continues on the rest. -/
theorem splitChunks_eq_of_gt (s : List Char) (h : s.length > 76) :
    splitChunks s = s.take 76 :: splitChunks (s.drop 76) := by
  obtain ⟨n', hn'⟩ : ∃ n', s.length = n' + 1 := ⟨s.length - 1, by omega⟩
  have hd : (s.drop 76).length = s.length - 76 := List.length_drop 76 s
  have h1 : splitChunks s = splitChunksAux (n' + 1) s := by rw [splitChunks, hn']
  rw [h1]
  show (if s.length > 76 then s.take 76 :: splitChunksAux n' (s.drop 76) else [s]) = _
  rw [if_pos h]
  rw [splitChunksAux_fuel n' (s.drop 76).length (s.drop 76) (by omega) (by omega)]
  rfl

theorem splitChunksAux_bound (n : Nat) :
    ∀ s : List Char, s.length ≤ 76 * n + 76 →
      ∀ c ∈ splitChunksAux n s, c.length ≤ 76 := by
  induction n with
  | zero =>
      intro s hs c hc
      rw [splitChunksAux_of_le 0 s (by omega)] at hc
      simp only [List.mem_singleton] at hc
      subst hc
      omega
  | succ n ih =>
      intro s hs c hc
      by_cases h : s.length > 76
      · unfold splitChunksAux at hc
        rw [if_pos h] at hc
        rcases List.mem_cons.mp hc with hc | hc
        · subst hc
          simp [List.length_take]
        · have hd : (s.drop 76).length = s.length - 76 := List.length_drop 76 s
          exact ih (s.drop 76) (by omega) c hc
      · rw [splitChunksAux_of_le _ s (by omega)] at hc
        simp only [List.mem_singleton] at hc
        subst hc
        omega



/-- Sample upstream oracle: the registry answers 200 with an empty JSON
object for every identifier. -/
def stubOk : String → UpstreamReply :=
  fun _ => UpstreamReply.response 200 "rawjson" (Except.ok (JVal.obj []))

/-- Sample upstream oracle: the registry answers 503 with a diagnostic
body for every identifier. -/
def stub503 : String → UpstreamReply :=
  fun _ => UpstreamReply.response 503 "upstream secret body" (Except.error "unused")

/-- Claim C1, counterexample.  The nine-letter identifier `"abcdefghi"`
contains non-digit characters, yet `entrepriseHandler` does not reject it
with 400: the registry call is made and the request succeeds, because the
validation checks only the length. -/
theorem c1_counterexample :
    ('a' ∈ "abcdefghi".data ∧ 'a'.isDigit = false) ∧
    (entrepriseHandler stubOk "abcdefghi").fetched = true ∧
    (entrepriseHandler stubOk "abcdefghi").status = 200 := by
  decide

/-- Claim C1, amended: every identifier whose length is neither 9 nor 14
is rejected with HTTP 400 and the fixed validation message before any
registry call (`fetched = false`); digit content is not checked. -/
theorem c1_length_validation (upstream : String → UpstreamReply) (numid : String)
    (h9 : numid.length ≠ 9) (h14 : numid.length ≠ 14) :
    entrepriseHandler upstream numid =
      ⟨400, some "Le paramètre doit être un SIREN (9 chiffres) ou un SIRET (14 chiffres)",
       false⟩ := by
  unfold entrepriseHandler
  rw [if_pos ⟨h9, h14⟩]

/-- Claim C1, witness: the three-character identifier `"123"` is rejected
before any network call. -/
theorem c1_length_validation_witness :
    entrepriseHandler stubOk "123" =
      ⟨400, some "Le paramètre doit être un SIREN (9 chiffres) ou un SIRET (14 chiffres)",
       false⟩ :=
  c1_length_validation stubOk "123" (by decide) (by decide)

/-- Claim C2, counterexample.  For an upstream 503 whose body is
`"upstream secret body"`, the handler answers HTTP 500 and its error body
contains the raw upstream body verbatim, contradicting the claim that the
upstream payload is never echoed to the caller. -/
theorem c2_counterexample :
    (entrepriseHandler stub503 "123456789").status = 500 ∧
    hasSubSeq "upstream secret body".data
      (((entrepriseHandler stub503 "123456789").errBody).getD "").data = true := by
  decide

/-- Claim C2, amended: for a valid-length identifier, an upstream 404
yields HTTP 404 with the fixed caller-safe message `"Entreprise
inconnue"`, independent of the upstream body; but an upstream status that
is neither 200 nor 404 yields HTTP 500 whose error body is the lookup
error string with the raw upstream body embedded verbatim as its suffix
(provided that error string does not happen to contain `"introuvable"`,
which would reroute it to the 404 branch). -/
theorem c2_error_propagation (upstream : String → UpstreamReply) (numid raw : String)
    (parsed : Except String JVal) (st : Nat)
    (hlen : ¬(numid.length ≠ 9 ∧ numid.length ≠ 14))
    (hup : upstream numid = UpstreamReply.response st raw parsed) :
    (st = 404 → entrepriseHandler upstream numid = ⟨404, some "Entreprise inconnue", true⟩) ∧
    (st ≠ 404 → st ≠ 200 →
      hasSubSeq "introuvable".data
          ("erreur API distante : " ++ toString st ++ " - " ++ raw).data = false →
      entrepriseHandler upstream numid =
        ⟨500, some ("erreur API distante : " ++ toString st ++ " - " ++ raw), true⟩) := by
  constructor
  · intro h404
    subst h404
    unfold entrepriseHandler
    rw [if_neg hlen, hup]
    rfl
  · intro h404 h200 hnotrouv
    unfold entrepriseHandler
    rw [if_neg hlen, hup]
    simp only [fetchSocieteExistData]
    rw [if_neg h404, if_pos h200]
    show (if hasSubSeq "introuvable".data
            ("erreur API distante : " ++ toString st ++ " - " ++ raw).data = true then
          (⟨404, some "Entreprise inconnue", true⟩ : EntrepriseResult)
        else ⟨500, some ("erreur API distante : " ++ toString st ++ " - " ++ raw), true⟩) = _
    rw [if_neg (by simpa using hnotrouv)]

/-- Claim C2, witness: identifier `"123456789"`, upstream 404 with body
`"corps brut"` gives the generic 404; upstream 500 with body `"oops"`
gives HTTP 500 embedding `"oops"`. -/
theorem c2_error_propagation_witness :
    entrepriseHandler (fun _ => UpstreamReply.response 404 "corps brut" (Except.error "x"))
        "123456789" = ⟨404, some "Entreprise inconnue", true⟩ ∧
    entrepriseHandler (fun _ => UpstreamReply.response 500 "oops" (Except.error "x"))
        "123456789" = ⟨500, some ("erreur API distante : " ++ toString 500 ++ " - " ++ "oops"),
        true⟩ :=
  ⟨(c2_error_propagation _ "123456789" "corps brut" (Except.error "x") 404
      (by decide) rfl).1 rfl,
   (c2_error_propagation _ "123456789" "oops" (Except.error "x") 500
      (by decide) rfl).2 (by decide) (by decide) (by decide)⟩

/-- A societe.com payload in which every name field is empty. -/
def emptyNamesPayload : SocieteComResponse := ⟨"", "", "", ⟨"", ""⟩, ⟨"", ""⟩⟩

/-- Claim C3, counterexample.  In the main.go revision of
`fetchSocieteComData`, a payload whose three name fields are all empty
maps to the empty string, not to the sentinel (`"Nom Inconnu"` in the
code): the final sentinel step of the claimed priority order is absent
from that revision. -/
theorem c3_counterexample :
    (fetchSocieteComDataMap emptyNamesPayload).denomination = "" ∧
    (fetchSocieteComDataMap emptyNamesPayload).denomination ≠ "Nom Inconnu" := by
  decide

/-- Claim C3, amended: the fixed priority order primary denomination →
usual denomination → trade name holds in both revisions of
`fetchSocieteComData`; the part_002 revision additionally falls back to
the sentinel `"Nom Inconnu"` when all three are empty, whereas the
main.go revision then returns the (empty) trade name, so its legalName
can be the empty string. -/
theorem c3_name_priority (a : SocieteComResponse) :
    (a.denomination ≠ "" →
      (fetchSocieteComDataMap a).denomination = a.denomination ∧
      (fetchSocieteComDataMapP2 a).denomination = a.denomination) ∧
    (a.denomination = "" → a.denominationUsuelle ≠ "" →
      (fetchSocieteComDataMap a).denomination = a.denominationUsuelle ∧
      (fetchSocieteComDataMapP2 a).denomination = a.denominationUsuelle) ∧
    (a.denomination = "" → a.denominationUsuelle = "" → a.enseigne ≠ "" →
      (fetchSocieteComDataMap a).denomination = a.enseigne ∧
      (fetchSocieteComDataMapP2 a).denomination = a.enseigne) ∧
    (a.denomination = "" → a.denominationUsuelle = "" → a.enseigne = "" →
      (fetchSocieteComDataMap a).denomination = "" ∧
      (fetchSocieteComDataMapP2 a).denomination = "Nom Inconnu") := by
  refine ⟨fun h1 => ?_, fun h1 h2 => ?_, fun h1 h2 h3 => ?_, fun h1 h2 h3 => ?_⟩ <;>
    simp [fetchSocieteComDataMap, fetchSocieteComDataMapP2, h1, *]

/-- Claim C3, witness: a payload carrying only the usual denomination
resolves to it in both revisions. -/
theorem c3_name_priority_witness :
    (fetchSocieteComDataMap ⟨"", "ACME SARL", "", ⟨"", ""⟩, ⟨"", ""⟩⟩).denomination
        = "ACME SARL" ∧
    (fetchSocieteComDataMapP2 ⟨"", "ACME SARL", "", ⟨"", ""⟩, ⟨"", ""⟩⟩).denomination
        = "ACME SARL" :=
  (c3_name_priority ⟨"", "ACME SARL", "", ⟨"", ""⟩, ⟨"", ""⟩⟩).2.1 rfl (by decide)

/-- Claim C4: in both revisions of `fetchSocieteComData`, when the
root-level address and the establishment-level address are both populated
(with different cities), the canonical address is the root-level one; and
in general the (city, postal code) pair is taken as a whole from the root
address, or as a whole from the establishment address, or (in the
part_002 revision, when both cities are empty) left as the empty pair —
fields of the two sources are never mixed. -/
theorem c4_address_priority (a : SocieteComResponse)
    (hroot : a.adresse.ville ≠ "") (hetab : a.etablissementAdresse.ville ≠ "")
    (hdiff : a.adresse.ville ≠ a.etablissementAdresse.ville) :
    ((fetchSocieteComDataMap a).villeLegale = a.adresse.ville ∧
     (fetchSocieteComDataMap a).codePostalLegal = a.adresse.codePostal ∧
     (fetchSocieteComDataMapP2 a).villeLegale = a.adresse.ville ∧
     (fetchSocieteComDataMapP2 a).codePostalLegal = a.adresse.codePostal) ∧
    (∀ b : SocieteComResponse,
      ((fetchSocieteComDataMap b).villeLegale, (fetchSocieteComDataMap b).codePostalLegal)
          = (b.adresse.ville, b.adresse.codePostal) ∨
      ((fetchSocieteComDataMap b).villeLegale, (fetchSocieteComDataMap b).codePostalLegal)
          = (b.etablissementAdresse.ville, b.etablissementAdresse.codePostal)) ∧
    (∀ b : SocieteComResponse,
      ((fetchSocieteComDataMapP2 b).villeLegale, (fetchSocieteComDataMapP2 b).codePostalLegal)
          = (b.adresse.ville, b.adresse.codePostal) ∨
      ((fetchSocieteComDataMapP2 b).villeLegale, (fetchSocieteComDataMapP2 b).codePostalLegal)
          = (b.etablissementAdresse.ville, b.etablissementAdresse.codePostal) ∨
      (b.adresse.ville = "" ∧ b.etablissementAdresse.ville = "" ∧
        ((fetchSocieteComDataMapP2 b).villeLegale, (fetchSocieteComDataMapP2 b).codePostalLegal)
          = ("", ""))) := by
  refine ⟨?_, fun b => ?_, fun b => ?_⟩
  · simp [fetchSocieteComDataMap, fetchSocieteComDataMapP2, hroot]
  · by_cases h : b.adresse.ville ≠ ""
    · left
      simp [fetchSocieteComDataMap, h]
    · right
      simp [fetchSocieteComDataMap, h]
  · by_cases h : b.adresse.ville ≠ ""
    · left
      simp [fetchSocieteComDataMapP2, h]
    · by_cases h2 : b.etablissementAdresse.ville ≠ ""
      · right; left
        simp [fetchSocieteComDataMapP2, h, h2]
      · right; right
        push_neg at h h2
        simp [fetchSocieteComDataMapP2, h, h2]

/-- Claim C4, witness: root address PARIS/75001 beats establishment
address LYON/69001 in both revisions. -/
theorem c4_address_priority_witness :
    (fetchSocieteComDataMap ⟨"ACME", "", "", ⟨"75001", "PARIS"⟩, ⟨"69001", "LYON"⟩⟩).villeLegale
        = "PARIS" ∧
    (fetchSocieteComDataMap ⟨"ACME", "", "", ⟨"75001", "PARIS"⟩, ⟨"69001", "LYON"⟩⟩).codePostalLegal
        = "75001" ∧
    (fetchSocieteComDataMapP2 ⟨"ACME", "", "", ⟨"75001", "PARIS"⟩, ⟨"69001", "LYON"⟩⟩).villeLegale
        = "PARIS" ∧
    (fetchSocieteComDataMapP2 ⟨"ACME", "", "", ⟨"75001", "PARIS"⟩, ⟨"69001", "LYON"⟩⟩).codePostalLegal
        = "75001" :=
  (c4_address_priority ⟨"ACME", "", "", ⟨"75001", "PARIS"⟩, ⟨"69001", "LYON"⟩⟩
    (by decide) (by decide) (by decide)).1

/-- Claim C5: `splitLines` wraps the base64 payload into lines of at most
76 characters; a 200-character payload yields exactly three lines — two
full 76-character lines and a final line holding exactly the remaining 48
characters (`drop 152`), with nothing appended beyond the data.  The
attachment part of the composed message embeds `splitLines` of the
payload (`attachmentPart`). -/
theorem c5_line_wrapping :
    (∀ s : List Char, ∀ c ∈ splitChunks s, c.length ≤ 76) ∧
    (∀ s : List Char, s.length = 200 →
      splitChunks s = [s.take 76, (s.drop 76).take 76, s.drop 152]) := by
  constructor
  · intro s
    exact splitChunksAux_bound s.length s (by omega)
  · intro s hs
    have h1 : (s.drop 76).length = 124 := by
      rw [List.length_drop]; omega
    have h2 : ((s.drop 76).drop 76).length = 48 := by
      rw [List.length_drop, h1]
    rw [splitChunks_eq_of_gt s (by omega),
        splitChunks_eq_of_gt (s.drop 76) (by omega),
        splitChunks_eq_of_le ((s.drop 76).drop 76) (by omega),
        List.drop_drop]

/-- Claim C5, witness: a concrete 200-character payload splits into two
76-character lines and one 48-character remainder line. -/
theorem c5_line_wrapping_witness :
    (List.replicate 200 'A').length = 200 ∧
    splitChunks (List.replicate 200 'A') =
      [(List.replicate 200 'A').take 76, ((List.replicate 200 'A').drop 76).take 76,
       (List.replicate 200 'A').drop 152] :=
  ⟨List.length_replicate 200 'A',
   c5_line_wrapping.2 (List.replicate 200 'A') (List.length_replicate 200 'A')⟩

/-- A concrete valid e-mail request without attachment. -/
def c6Req : EmailRequest := ⟨"dest@example.org", "Hello", "corps", "", ""⟩

/-- The header entries of `c6Req` in Go insertion order. -/
def c6Pairs : List (String × String) := headerPairs "admin@example.org" "dest@example.org" "Hello"

/-- Claim C6: the header block is built by ranging over a Go map, whose
iteration order is unspecified, so composition is not deterministic.
Two orders the map iteration may legally produce — the insertion order
and its reverse, a permutation of the same five entries — yield different
message bytes for the same request and configuration. -/
theorem c6_nondeterministic_headers :
    c6Pairs.reverse.Perm c6Pairs ∧
    composeMessage c6Pairs.reverse c6Req ≠ composeMessage c6Pairs c6Req :=
  ⟨List.reverse_perm c6Pairs, by decide⟩

/-- A concrete relay configuration with all four values present. -/
def cfgStd : SmtpConfig := ⟨"relay.example.org", "587", "admin@example.org", "motdepasse"⟩

/-- Claim C7, counterexample.  The request missing `to` and the request
missing `subject` receive exactly the same 400 response body: the fixed
message lists all three required fields and does not name the first
absent one, so there is no `MissingField{name}`-style identification of
the field `to`. -/
theorem c7_counterexample :
    sendEmailResponse (sendEmailAction "POST" (some ⟨"", "x", "y", "", ""⟩) cfgStd []) none =
      sendEmailResponse (sendEmailAction "POST" (some ⟨"a@b.fr", "", "y", "", ""⟩) cfgStd []) none ∧
    (sendEmailResponse (sendEmailAction "POST" (some ⟨"", "x", "y", "", ""⟩) cfgStd []) none).1
      = 400 := by
  decide

/-- Claim C7, amended: whenever at least one of `to`, `subject`, `body`
is empty, the handler rejects the request with HTTP 400 and the single
fixed message listing all three required fields; the message is the same
whichever field is missing, so it does not identify the first absent
field. -/
theorem c7_required_fields (req : EmailRequest) (cfg : SmtpConfig)
    (iter : List (String × String)) (sendErr : Option String)
    (h : req.toAddr = "" ∨ req.subject = "" ∨ req.body = "") :
    sendEmailAction "POST" (some req) cfg iter = SendAction.rejectMissing ∧
    sendEmailResponse (sendEmailAction "POST" (some req) cfg iter) sendErr =
      (400, some "Les champs \x27to\x27, \x27subject\x27 et \x27body\x27 sont requis") := by
  have ha : sendEmailAction "POST" (some req) cfg iter = SendAction.rejectMissing := by
    unfold sendEmailAction
    rw [if_neg (by simp)]
    show (if req.toAddr = "" ∨ req.subject = "" ∨ req.body = "" then SendAction.rejectMissing
          else _) = _
    rw [if_pos h]
  exact ⟨ha, by rw [ha]; rfl⟩

/-- Claim C7, witness: the request `{"to":"","subject":"x","body":"y"}`
is rejected with HTTP 400 and the fixed required-fields message. -/
theorem c7_required_fields_witness :
    sendEmailAction "POST" (some ⟨"", "x", "y", "", ""⟩) cfgStd [] = SendAction.rejectMissing ∧
    sendEmailResponse (sendEmailAction "POST" (some ⟨"", "x", "y", "", ""⟩) cfgStd []) none =
      (400, some "Les champs \x27to\x27, \x27subject\x27 et \x27body\x27 sont requis") :=
  c7_required_fields ⟨"", "x", "y", "", ""⟩ cfgStd [] none (Or.inl rfl)

theorem sendEmailAction_deliver (req : EmailRequest) (cfg : SmtpConfig)
    (iter : List (String × String))
    (ht : req.toAddr ≠ "") (hs : req.subject ≠ "") (hb : req.body ≠ "")
    (hh : cfg.host ≠ "") (hp : cfg.port ≠ "") (hu : cfg.user ≠ "") (hw : cfg.pass ≠ "") :
    sendEmailAction "POST" (some req) cfg iter =
      SendAction.deliver (cfg.port == "465") (cfg.host ++ ":" ++ cfg.port) cfg.user
        [req.toAddr] (composeMessage iter req) := by
  simp [sendEmailAction, ht, hs, hb, hh, hp, hu, hw]

theorem attachmentPart_ne_empty (n d : String) : attachmentPart n d ≠ "" := by
  intro h
  have hl : (attachmentPart n d).length = 0 := by rw [h]; rfl
  rw [attachmentPart] at hl
  simp only [String.length_append] at hl
  have h2 : ("--" : String).length = 2 := rfl
  omega

/-- Claim C8: for a valid request and complete configuration, the
transport path is selected solely by the configured port — `"465"` gives
the implicit-TLS delivery and any other port the standard STARTTLS
delivery, both with the identical envelope (sender, recipient list,
message bytes); and a successful implicit-TLS session issues exactly the
sequence TLS dial, AUTH only if advertised, MAIL FROM, one RCPT TO per
recipient, DATA, message write, data close, QUIT. -/
theorem c8_transport_selection (host user pass port : String) (req : EmailRequest)
    (iter : List (String × String)) (adv : Bool)
    (hh : host ≠ "") (hp : port ≠ "") (hu : user ≠ "") (hw : pass ≠ "")
    (ht : req.toAddr ≠ "") (hs : req.subject ≠ "") (hb : req.body ≠ "") :
    (port = "465" →
      sendEmailAction "POST" (some req) ⟨host, port, user, pass⟩ iter =
        SendAction.deliver true (host ++ ":" ++ port) user [req.toAddr]
          (composeMessage iter req)) ∧
    (port ≠ "465" →
      sendEmailAction "POST" (some req) ⟨host, port, user, pass⟩ iter =
        SendAction.deliver false (host ++ ":" ++ port) user [req.toAddr]
          (composeMessage iter req)) ∧
    (sendMail465Trace (host ++ ":" ++ port) user [req.toAddr] (composeMessage iter req) adv =
      [SmtpCommand.tlsDial (host ++ ":" ++ port)] ++
      (if adv then [SmtpCommand.authCmd] else []) ++
      [SmtpCommand.mailFrom user, SmtpCommand.rcptTo req.toAddr, SmtpCommand.dataCmd,
       SmtpCommand.writeBody (composeMessage iter req), SmtpCommand.closeData,
       SmtpCommand.quitCmd]) := by
  have ha := sendEmailAction_deliver req ⟨host, port, user, pass⟩ iter ht hs hb hh hp hu hw
  refine ⟨fun h465 => ?_, fun h465 => ?_, ?_⟩
  · rw [ha]
    simp [h465]
  · rw [ha]
    simp [h465]
  · simp [sendMail465Trace]

/-- Claim C8, witness: with port `"465"` the delivery uses the
implicit-TLS path, with port `"587"` the STARTTLS path, with the same
envelope in both cases. -/
theorem c8_transport_selection_witness :
    sendEmailAction "POST" (some ⟨"d@e.fr", "Objet", "Texte", "", ""⟩)
        ⟨"relay.example.org", "465", "admin@example.org", "motdepasse"⟩ [] =
      SendAction.deliver true "relay.example.org:465" "admin@example.org" ["d@e.fr"]
        (composeMessage [] ⟨"d@e.fr", "Objet", "Texte", "", ""⟩) ∧
    sendEmailAction "POST" (some ⟨"d@e.fr", "Objet", "Texte", "", ""⟩)
        ⟨"relay.example.org", "587", "admin@example.org", "motdepasse"⟩ [] =
      SendAction.deliver false "relay.example.org:587" "admin@example.org" ["d@e.fr"]
        (composeMessage [] ⟨"d@e.fr", "Objet", "Texte", "", ""⟩) :=
  ⟨(c8_transport_selection "relay.example.org" "admin@example.org" "motdepasse" "465"
      ⟨"d@e.fr", "Objet", "Texte", "", ""⟩ [] false (by decide) (by decide) (by decide)
      (by decide) (by decide) (by decide) (by decide)).1 rfl,
   (c8_transport_selection "relay.example.org" "admin@example.org" "motdepasse" "587"
      ⟨"d@e.fr", "Objet", "Texte", "", ""⟩ [] false (by decide) (by decide) (by decide)
      (by decide) (by decide) (by decide) (by decide)).2.1 (by decide)⟩

/-- Claim C10: under a valid request and complete configuration the
handler never rejects on the attachment fields — it always composes and
delivers; the composed message carries an attachment part exactly when
both `attachment_name` and `attachment_data` are non-empty, and otherwise
(including when exactly one of the two is non-empty) the message is the
text part and closing marker alone; on transport success the handler
answers 200 with the success message. -/
theorem c10_attachment_requires_both (req : EmailRequest) (cfg : SmtpConfig)
    (iter : List (String × String))
    (ht : req.toAddr ≠ "") (hs : req.subject ≠ "") (hb : req.body ≠ "")
    (hh : cfg.host ≠ "") (hp : cfg.port ≠ "") (hu : cfg.user ≠ "") (hw : cfg.pass ≠ "") :
    sendEmailAction "POST" (some req) cfg iter =
      SendAction.deliver (cfg.port == "465") (cfg.host ++ ":" ++ cfg.port) cfg.user
        [req.toAddr] (composeMessage iter req) ∧
    (req.attachmentName ≠ "" ∧ req.attachmentData ≠ "" →
      attachmentSection req = attachmentPart req.attachmentName req.attachmentData ∧
      attachmentSection req ≠ "") ∧
    (req.attachmentName = "" ∨ req.attachmentData = "" →
      attachmentSection req = "" ∧
      composeMessage iter req =
        emitHeaders iter ++ "\r\n" ++ textPart req.body ++ closingMarker) ∧
    sendEmailResponse (sendEmailAction "POST" (some req) cfg iter) none =
      (200, some "Email envoyé avec succès") := by
  have ha := sendEmailAction_deliver req cfg iter ht hs hb hh hp hu hw
  refine ⟨ha, fun hboth => ?_, fun hone => ?_, by rw [ha]; rfl⟩
  · have he : attachmentSection req = attachmentPart req.attachmentName req.attachmentData := by
      unfold attachmentSection
      rw [if_pos ⟨hboth.2, hboth.1⟩]
    exact ⟨he, by rw [he]; exact attachmentPart_ne_empty _ _⟩
  · have he : attachmentSection req = "" := by
      unfold attachmentSection
      rw [if_neg (by tauto)]
    refine ⟨he, ?_⟩
    unfold composeMessage
    rw [he]
    simp

/-- Claim C10, witness: a request with an attachment name but empty
attachment data is not rejected; it is composed without any attachment
part, delivered, and acknowledged with 200. -/
theorem c10_attachment_requires_both_witness :
    sendEmailAction "POST" (some ⟨"d@e.fr", "Objet", "Texte", "devis.pdf", ""⟩) cfgStd [] =
      SendAction.deliver false "relay.example.org:587" "admin@example.org" ["d@e.fr"]
        (composeMessage [] ⟨"d@e.fr", "Objet", "Texte", "devis.pdf", ""⟩) ∧
    attachmentSection ⟨"d@e.fr", "Objet", "Texte", "devis.pdf", ""⟩ = "" ∧
    sendEmailResponse
        (sendEmailAction "POST" (some ⟨"d@e.fr", "Objet", "Texte", "devis.pdf", ""⟩) cfgStd [])
        none = (200, some "Email envoyé avec succès") := by
  have h := c10_attachment_requires_both ⟨"d@e.fr", "Objet", "Texte", "devis.pdf", ""⟩ cfgStd []
    (by decide) (by decide) (by decide) (by decide) (by decide) (by decide) (by decide)
  exact ⟨h.1, (h.2.2.1 (Or.inr rfl)).1, h.2.2.2⟩

theorem jlookup_cons_ne (key k : String) (v : JVal) (fs : List (String × JVal))
    (h : k ≠ key) : jlookup key ((k, v) :: fs) = jlookup key fs := by
  show (match jlookup key fs with
        | some r => some r
        | none => if k == key then some v else none) = jlookup key fs
  cases hj : jlookup key fs with
  | some r => rfl
  | none => simp [h]

theorem unmarshalSocieteExist_obj_none (fs : List (String × JVal))
    (h : jlookup "common" fs = none) :
    unmarshalSocieteExist (JVal.obj fs) = Except.ok ⟨"", "", "", "", "", ""⟩ := by
  simp [unmarshalSocieteExist, h]

/-- Claim C9, counterexample.  `{"common": 5}` is syntactically valid
JSON (the parse stage succeeds, witnessed by `Except.ok`), yet the
normalizer fails with a decode error, because `json.Unmarshal` rejects a
number where the `common` object is expected: malformed JSON is not the
only cause of normalizer failure. -/
theorem c9_counterexample :
    fetchSocieteExistData (UpstreamReply.response 200 "rawjson"
        (Except.ok (JVal.obj [("common", JVal.num 5)]))) =
      Except.error ("erreur de décodage JSON : cannot unmarshal value into struct common") :=
  rfl

/-- Claim C9, amended: for a 200 response, decoding never fails merely
because an optional or nested object is absent — an absent `common`
object, absent members inside `common`, and absent `adresse` or
`etablissement` objects all resolve to empty strings, and unknown members
are ignored; malformed JSON fails with a decode error; but in addition,
syntactically valid JSON giving a known field a value of the wrong type
also fails with a decode error (see the counterexample). -/
theorem c9_tolerant_decoding :
    (∀ (raw : String) (fs : List (String × JVal)), jlookup "common" fs = none →
      fetchSocieteExistData (UpstreamReply.response 200 raw (Except.ok (JVal.obj fs))) =
        Except.ok ⟨"", "", "", "", "", ""⟩) ∧
    (∀ (raw k : String) (v : JVal) (fs : List (String × JVal)), k ≠ "common" →
      fetchSocieteExistData
          (UpstreamReply.response 200 raw (Except.ok (JVal.obj ((k, v) :: fs)))) =
        fetchSocieteExistData (UpstreamReply.response 200 raw (Except.ok (JVal.obj fs)))) ∧
    (∀ raw e : String,
      fetchSocieteExistData (UpstreamReply.response 200 raw (Except.error e)) =
        Except.error ("erreur de décodage JSON : " ++ e)) ∧
    (∀ gs : List (String × JVal),
      jlookup "siren" gs = none → jlookup "siretsiege" gs = none →
      jlookup "numtva" gs = none → jlookup "deno" gs = none →
      jlookup "status" gs = none → jlookup "immatinsee" gs = none →
      unmarshalExistCommon (JVal.obj gs) = Except.ok ⟨"", "", "", "", "", ""⟩) ∧
    (∀ fs : List (String × JVal),
      jlookup "denomination" fs = none → jlookup "denomination_usuelle" fs = none →
      jlookup "enseigne" fs = none → jlookup "adresse" fs = none →
      jlookup "etablissement" fs = none →
      unmarshalSocieteCom (JVal.obj fs) =
        Except.ok ⟨"", "", "", ⟨"", ""⟩, ⟨"", ""⟩⟩) := by
  refine ⟨?_, ?_, ?_, ?_, ?_⟩
  · intro raw fs h
    have h1 := unmarshalSocieteExist_obj_none fs h
    simp [fetchSocieteExistData, h1]
  · intro raw k v fs h
    have h1 : unmarshalSocieteExist (JVal.obj ((k, v) :: fs)) =
        unmarshalSocieteExist (JVal.obj fs) := by
      simp [unmarshalSocieteExist, jlookup_cons_ne "common" k v fs h]
    simp [fetchSocieteExistData, h1]
  · intro raw e
    rfl
  · intro gs h1 h2 h3 h4 h5 h6
    simp only [unmarshalExistCommon, unmarshalGoString, h1, h2, h3, h4, h5, h6]
    rfl
  · intro fs h1 h2 h3 h4 h5
    simp only [unmarshalSocieteCom, unmarshalGoString, h1, h2, h3, h4, h5]
    rfl

/-- Claim C9, witness: a 200 payload that is one JSON object with a
single unknown member decodes to the all-empty canonical entity. -/
theorem c9_tolerant_decoding_witness :
    fetchSocieteExistData (UpstreamReply.response 200 "rawjson"
        (Except.ok (JVal.obj [("unexpected", JVal.num 3)]))) =
      Except.ok ⟨"", "", "", "", "", ""⟩ :=
  c9_tolerant_decoding.1 "rawjson" [("unexpected", JVal.num 3)] rfl
